import Mathlib

/-!
Verification of the HTTP connection layer of the arangodb go-driver
(`deps/github.com/arangodb/go-driver/http/connection.go`): a shallow
embedding of the connection data model, request creation, response
classification, decoding dispatch and authentication decoration, with
theorems settling the specified behavior.

Bytes are modelled as `List Nat` (Go `[]byte`), Go `int`-typed limits as
`Int`, and the driver `ContentType` enumeration as its underlying integer.
Effects on caller-attached context slots are modelled by explicit state
passing: a slot is `some contents` when attached, `none` when absent.
-/

namespace GoDriverHttp

/-- `driver.ContentType` is an integer enumeration in the driver package. -/
abbrev ContentType := Nat

/-- `driver.ContentTypeJSON` (first enumeration value). -/
def ContentTypeJSON : ContentType := 0

/-- `driver.ContentTypeVelocypack` (second enumeration value). -/
def ContentTypeVelocypack : ContentType := 1

/-- The errors `connection.go` can produce, carrying the data the Go error
messages interpolate.  `missingAuthField` comes from the spec-modelled
authentication constructor (see `newAuthenticatedConnection`). -/
inductive DriverError where
  | invalidMethod (method : String)
  | unsupportedContentTypeConfig (ct : Nat)
  | arangoAuthError (code : Nat) (body : List Nat)
  | unsupportedResponseContentType (ct : String) (status : Nat) (body : List Nat)
  | unsupportedAuthenticationType (t : Nat)
  | missingAuthField (field : String)
  deriving DecidableEq, Repr

/-- The fragment of `http.Transport` that `newHTTPConnection` adjusts
(lines 119-132): the idle-connection limits.  Go `int` fields. -/
structure Transport where
  MaxIdleConnsPerHost : Int
  MaxIdleConns : Int
  deriving DecidableEq, Repr

/-- `DefaultMaxIdleConnsPerHost` constant (line 45). -/
def DefaultMaxIdleConnsPerHost : Int := 64

/-- Lines 119-132 of `newHTTPConnection`: when the transport is adjustable
(a non-nil `*http.Transport`), an unset per-host idle limit is set to the
default, and a positive total idle limit below three times the per-host
default is raised to that value. -/
def adjustTransport (t : Transport) : Transport :=
  let t1 := if t.MaxIdleConnsPerHost = 0 then
      { t with MaxIdleConnsPerHost := DefaultMaxIdleConnsPerHost }
    else t
  let defaultMaxIdleConns := 3 * DefaultMaxIdleConnsPerHost
  if t1.MaxIdleConns > 0 ∧ t1.MaxIdleConns < defaultMaxIdleConns then
    { t1 with MaxIdleConns := defaultMaxIdleConns }
  else t1

/-- The `httpConnection` struct (lines 159-163): endpoint URL, configured
content type, and the HTTP client (abstract, identified by a number). -/
structure httpConnection where
  endpoint : String
  contentType : ContentType
  client : Nat
  deriving DecidableEq, Repr

/-- The two request variants produced by `NewRequest`:
`httpJSONRequest` and `httpVPackRequest`, each holding method and path. -/
inductive Request where
  | httpJSONRequest (method : String) (path : String)
  | httpVPackRequest (method : String) (path : String)
  deriving DecidableEq, Repr

/-- The method allow-list of `NewRequest` (line 173). -/
def validMethods : List String :=
  ["GET", "POST", "DELETE", "HEAD", "PATCH", "PUT", "OPTIONS"]

/-- Whether `pat` occurs as a contiguous run inside the character list
(`strings.Contains` on the underlying text). -/
def hasInfixChars (pat : List Char) : List Char → Bool
  | [] => pat.isEmpty
  | c :: cs => pat.isPrefixOf (c :: cs) || hasInfixChars pat cs

/-- `strings.Contains s pat`. -/
def stringContains (s pat : String) : Bool :=
  hasInfixChars pat.toList s.toList

/-- `NewRequest` (lines 171-199).  State passing: the second component is
the receiver after the call; the Go method body never writes to the
receiver, so every branch returns it unchanged.  The content-type override
for graph (gharial) paths is computed on the per-call local `ct`. -/
def NewRequest (c : httpConnection) (method path : String) :
    (Except DriverError Request) × httpConnection :=
  if method ∈ validMethods then
    let ct := if c.contentType ≠ ContentTypeJSON ∧
        stringContains path "_api/gharial" = true then
        ContentTypeJSON
      else c.contentType
    if ct = ContentTypeJSON then
      (Except.ok (Request.httpJSONRequest method path), c)
    else if ct = ContentTypeVelocypack then
      (Except.ok (Request.httpVPackRequest method path), c)
    else
      (Except.error (DriverError.unsupportedContentTypeConfig c.contentType), c)
  else
    (Except.error (DriverError.invalidMethod method), c)

/-- The two response variants built by `Do`: `httpJSONResponse` and
`httpVPackResponse`, keeping the status code and the raw body bytes. -/
inductive Response where
  | httpJSONResponse (status : Nat) (rawResponse : List Nat)
  | httpVPackResponse (status : Nat) (rawResponse : List Nat)
  deriving DecidableEq, Repr

deriving instance DecidableEq for Except

/-- Result of the classification stage of `Do`: the returned value or
error, plus the final contents of the two caller-attached context slots
(`none` when the slot was not attached). -/
structure DoResult where
  result : Except DriverError Response
  rawSlot : Option (List Nat)
  respSlot : Option (Option Response)
  deriving DecidableEq, Repr

/-- Everything before the first character `;` of the header value:
`strings.Split(ct, ";")[0]` on the character list. -/
def takeUntilSemicolon : List Char → List Char
  | [] => []
  | c :: cs => if c = ';' then [] else c :: takeUntilSemicolon cs

/-- The declared media type: the portion of the Content-Type header before
any parameter. -/
def mediaType (ct : String) : String :=
  String.mk (takeUntilSemicolon ct.toList)

/-- The byte values of the substituted empty JSON object body, the two
characters of `[]byte("\x7b\x7d")` at line 262. -/
def emptyObjectBytes : List Nat := [123, 125]

/-- Lines 225-278 of `Do`, after the transport call succeeded and the body
was fully read: populate the raw-capture slot with the body bytes, classify
the response by its declared media type, substitute the empty JSON object
for an empty body under an unrecognized media type (updating the raw slot
too), and on success populate the response-capture slot.  The error
returns happen before the response-capture write, leaving that slot at its
prior contents. -/
def doClassify (rawSlot0 : Option (List Nat)) (respSlot0 : Option (Option Response))
    (contentTypeHeader : String) (statusCode : Nat) (body : List Nat) : DoResult :=
  let rawSlot1 := match rawSlot0 with
    | some _ => some body
    | none => none
  let finish := fun (r : Response) (raw : Option (List Nat)) =>
    ({ result := Except.ok r, rawSlot := raw,
       respSlot := match respSlot0 with
         | some _ => some (some r)
         | none => none } : DoResult)
  let mt := mediaType contentTypeHeader
  if mt = "application/json" ∨ mt = "application/x-arango-dump" then
    finish (Response.httpJSONResponse statusCode body) rawSlot1
  else if mt = "application/x-velocypack" then
    finish (Response.httpVPackResponse statusCode body) rawSlot1
  else if statusCode = 401 then
    { result := Except.error (DriverError.arangoAuthError statusCode body),
      rawSlot := rawSlot1, respSlot := respSlot0 }
  else if body = [] then
    let body2 := emptyObjectBytes
    let rawSlot2 := match rawSlot1 with
      | some _ => some body2
      | none => none
    finish (Response.httpJSONResponse statusCode body2) rawSlot2
  else
    { result := Except.error
        (DriverError.unsupportedResponseContentType contentTypeHeader statusCode body),
      rawSlot := rawSlot1, respSlot := respSlot0 }

/-- Which external codec `Unmarshal` dispatched to. -/
inductive Codec where
  | json
  | velocypack
  deriving DecidableEq, Repr

/-- Outcome of `Unmarshal`: success or wrapped decode failure via the
chosen codec, or the unsupported-content-type configuration error. -/
inductive UnmarshalOutcome where
  | success (used : Codec)
  | decodeFailure (used : Codec) (msg : String)
  | unsupported (ct : Nat)
  deriving DecidableEq, Repr

/-- The structural JSON sniff of `Unmarshal` (lines 284-290): length at
least 2 and first and last byte a matching brace or bracket pair. -/
def looksLikeJSON (data : List Nat) : Bool :=
  2 ≤ data.length ∧
    ((data.headD 0 = 123 ∧ data.getLastD 0 = 125) ∨
     (data.headD 0 = 91 ∧ data.getLastD 0 = 93))

/-- `Unmarshal` (lines 282-305).  The external codecs (`encoding/json` and
the velocypack library) are kept abstract: they are passed as functions returning
`none` on success and `some msg` on failure, and the outcome records which
one was used.  The configured content type is overridden to JSON when the
connection is configured for velocypack but the bytes structurally look
like JSON; the unsupported-content-type error reports the configured
value. -/
def Unmarshal (jsonCodec vpackCodec : List Nat → Option String)
    (c : httpConnection) (data : List Nat) : UnmarshalOutcome :=
  let ct := if c.contentType = ContentTypeVelocypack ∧ looksLikeJSON data = true then
      ContentTypeJSON
    else c.contentType
  if ct = ContentTypeJSON then
    match jsonCodec data with
    | none => UnmarshalOutcome.success Codec.json
    | some msg => UnmarshalOutcome.decodeFailure Codec.json msg
  else if ct = ContentTypeVelocypack then
    match vpackCodec data with
    | none => UnmarshalOutcome.success Codec.velocypack
    | some msg => UnmarshalOutcome.decodeFailure Codec.velocypack msg
  else
    UnmarshalOutcome.unsupported c.contentType

/-- Modelled from the spec: the driver `AuthenticationType` enumeration
(declared in the driver package, not under src): Basic, JWT, Raw in
order. -/
def AuthenticationTypeBasic : Nat := 0

/-- Modelled from the spec: the JWT authentication variant tag. -/
def AuthenticationTypeJWT : Nat := 1

/-- Modelled from the spec: the Raw authentication variant tag. -/
def AuthenticationTypeRaw : Nat := 2

/-- Modelled from the spec: a driver `Authentication` value (interface
declared in the driver package, not under src): a variant tag plus
key-to-value fields; `Get` yields the empty string for an absent field. -/
structure Authentication where
  typ : Nat
  fields : List (String × String)

/-- `auth.Get key`: the field value, empty string when absent. -/
def Authentication.get (a : Authentication) (key : String) : String :=
  match a.fields.lookup key with
  | some v => v
  | none => ""

/-- The `httpAuthentication` values built by the three constructors called
from `SetAuthentication`. -/
inductive httpAuthentication where
  | basicAuth (userName password : String)
  | jwtAuth (userName password : String)
  | rawAuth (value : String)
  deriving DecidableEq, Repr

/-- `newBasicAuthentication` (constructor in the authentication file, not
under src; its call shape is visible at line 326). -/
def newBasicAuthentication (userName password : String) : httpAuthentication :=
  httpAuthentication.basicAuth userName password

/-- `newJWTAuthentication` (line 330). -/
def newJWTAuthentication (userName password : String) : httpAuthentication :=
  httpAuthentication.jwtAuth userName password

/-- `newRawAuthentication` (line 333). -/
def newRawAuthentication (value : String) : httpAuthentication :=
  httpAuthentication.rawAuth value

/-- The authentication decorator: a new connection value wrapping the
original one together with the credentials. -/
structure authConnection where
  auth : httpAuthentication
  conn : httpConnection
  deriving DecidableEq, Repr

/-- Modelled from the spec: `newAuthenticatedConnection` (the decorator
constructor in the authentication file, not under src).  Per the spec,
Basic and JWT require the username and password fields to be present and
Raw requires the value field; an absent field (empty `Get` result) is a
configuration error.  On success it wraps the given connection without
modifying it. -/
def newAuthenticatedConnection (c : httpConnection) (auth : httpAuthentication) :
    Except DriverError authConnection :=
  match auth with
  | httpAuthentication.basicAuth u p =>
    if u = "" ∨ p = "" then Except.error (DriverError.missingAuthField "username or password")
    else Except.ok { auth := httpAuthentication.basicAuth u p, conn := c }
  | httpAuthentication.jwtAuth u p =>
    if u = "" ∨ p = "" then Except.error (DriverError.missingAuthField "username or password")
    else Except.ok { auth := httpAuthentication.jwtAuth u p, conn := c }
  | httpAuthentication.rawAuth v =>
    if v = "" then Except.error (DriverError.missingAuthField "value")
    else Except.ok { auth := httpAuthentication.rawAuth v, conn := c }

/-- `SetAuthentication` (lines 320-343).  State passing: the second
component is the receiver after the call; the Go method body never writes
to the receiver.  Dispatches on the authentication variant and builds the
decorated connection, or fails on an unsupported variant. -/
def SetAuthentication (c : httpConnection) (auth : Authentication) :
    (Except DriverError authConnection) × httpConnection :=
  if auth.typ = AuthenticationTypeBasic then
    (newAuthenticatedConnection c
      (newBasicAuthentication (auth.get "username") (auth.get "password")), c)
  else if auth.typ = AuthenticationTypeJWT then
    (newAuthenticatedConnection c
      (newJWTAuthentication (auth.get "username") (auth.get "password")), c)
  else if auth.typ = AuthenticationTypeRaw then
    (newAuthenticatedConnection c (newRawAuthentication (auth.get "value")), c)
  else
    (Except.error (DriverError.unsupportedAuthenticationType auth.typ), c)

/-- A media type the classification switch of `Do` recognizes. -/
def recognizedMediaType (mt : String) : Bool :=
  mt = "application/json" || mt = "application/x-arango-dump" ||
    mt = "application/x-velocypack"

/-- Claim C1: `Do` classifies the response by the media type before any
semicolon parameter: `application/json` or `application/x-arango-dump`
yields a JSON Response over the body; `application/x-velocypack` yields a
velocypack Response; any other media type with status 401 yields an
authentication error carrying the raw body; any other media type with an
empty body yields a JSON Response over the two bytes of the empty object;
any other media type with a non-empty body yields an
unsupported-content-type error carrying the content-type string, status
and body. -/
theorem C1_do_classification (rawSlot0 : Option (List Nat))
    (respSlot0 : Option (Option Response))
    (ctHeader : String) (status : Nat) (body : List Nat) :
    (mediaType ctHeader = "application/json" ∨
        mediaType ctHeader = "application/x-arango-dump" →
      (doClassify rawSlot0 respSlot0 ctHeader status body).result =
        Except.ok (Response.httpJSONResponse status body)) ∧
    (mediaType ctHeader = "application/x-velocypack" →
      (doClassify rawSlot0 respSlot0 ctHeader status body).result =
        Except.ok (Response.httpVPackResponse status body)) ∧
    (recognizedMediaType (mediaType ctHeader) = false → status = 401 →
      (doClassify rawSlot0 respSlot0 ctHeader status body).result =
        Except.error (DriverError.arangoAuthError status body)) ∧
    (recognizedMediaType (mediaType ctHeader) = false → status ≠ 401 → body = [] →
      (doClassify rawSlot0 respSlot0 ctHeader status body).result =
        Except.ok (Response.httpJSONResponse status emptyObjectBytes)) ∧
    (recognizedMediaType (mediaType ctHeader) = false → status ≠ 401 → body ≠ [] →
      (doClassify rawSlot0 respSlot0 ctHeader status body).result =
        Except.error
          (DriverError.unsupportedResponseContentType ctHeader status body)) := by
  refine ⟨?_, ?_, ?_, ?_, ?_⟩
  · rintro (h | h) <;> simp [doClassify, h]
  · intro h
    simp [doClassify, h]
  · intro hr h401
    simp [recognizedMediaType] at hr
    obtain ⟨⟨h1, h2⟩, h3⟩ := hr
    simp [doClassify, h1, h2, h3, h401]
  · intro hr h401 hb
    simp [recognizedMediaType] at hr
    obtain ⟨⟨h1, h2⟩, h3⟩ := hr
    simp [doClassify, h1, h2, h3, h401, hb]
  · intro hr h401 hb
    simp [recognizedMediaType] at hr
    obtain ⟨⟨h1, h2⟩, h3⟩ := hr
    simp [doClassify, h1, h2, h3, h401, hb]

/-- Claim C1, witness: an unrecognized media type with status 200 and an
empty body classifies as a JSON Response over the substituted empty
object bytes. -/
theorem C1_do_classification_witness :
    (doClassify (some []) none "text/plain" 200 []).result =
      Except.ok (Response.httpJSONResponse 200 emptyObjectBytes) :=
  (C1_do_classification (some []) none "text/plain" 200 []).2.2.2.1
    (by decide) (by decide) rfl

/-- Claim C2: with a velocypack-configured connection, bytes that
structurally look like JSON (length at least 2, brace or bracket framed)
are decoded with the JSON codec, and all other bytes with the velocypack
codec; a JSON-configured connection always uses the JSON codec; any other
configured content type is an unsupported-content-type error; a codec
failure is returned as a decode error carrying the codec message. -/
theorem C2_unmarshal_dispatch (jsonCodec vpackCodec : List Nat → Option String)
    (c : httpConnection) (data : List Nat) :
    (c.contentType = ContentTypeVelocypack → looksLikeJSON data = true →
      Unmarshal jsonCodec vpackCodec c data =
        (match jsonCodec data with
         | none => UnmarshalOutcome.success Codec.json
         | some msg => UnmarshalOutcome.decodeFailure Codec.json msg)) ∧
    (c.contentType = ContentTypeVelocypack → looksLikeJSON data = false →
      Unmarshal jsonCodec vpackCodec c data =
        (match vpackCodec data with
         | none => UnmarshalOutcome.success Codec.velocypack
         | some msg => UnmarshalOutcome.decodeFailure Codec.velocypack msg)) ∧
    (c.contentType = ContentTypeJSON →
      Unmarshal jsonCodec vpackCodec c data =
        (match jsonCodec data with
         | none => UnmarshalOutcome.success Codec.json
         | some msg => UnmarshalOutcome.decodeFailure Codec.json msg)) ∧
    (c.contentType ≠ ContentTypeJSON → c.contentType ≠ ContentTypeVelocypack →
      Unmarshal jsonCodec vpackCodec c data =
        UnmarshalOutcome.unsupported c.contentType) := by
  refine ⟨?_, ?_, ?_, ?_⟩
  · intro hc hj
    cases hjc : jsonCodec data <;>
      simp [Unmarshal, hc, hj, hjc, ContentTypeJSON, ContentTypeVelocypack]
  · intro hc hj
    cases hvc : vpackCodec data <;>
      simp [Unmarshal, hc, hj, hvc, ContentTypeJSON, ContentTypeVelocypack]
  · intro hc
    cases hjc : jsonCodec data <;>
      simp [Unmarshal, hc, hjc, ContentTypeJSON, ContentTypeVelocypack]
  · intro h1 h2
    by_cases hj : looksLikeJSON data = true <;>
      simp [Unmarshal, h1, h2, hj]

/-- Claim C2, witness: on a velocypack-configured connection, the brace
framed bytes of an object literal dispatch to the JSON codec. -/
theorem C2_unmarshal_dispatch_witness :
    Unmarshal (fun _ => none) (fun _ => none)
      { endpoint := "e", contentType := 1, client := 0 } [123, 97, 125] =
      UnmarshalOutcome.success Codec.json :=
  (C2_unmarshal_dispatch (fun _ => none) (fun _ => none)
    { endpoint := "e", contentType := 1, client := 0 } [123, 97, 125]).1
    rfl (by decide)

/-- Claim C3: for every valid method and every path containing the graph
API marker, `NewRequest` on a velocypack-configured connection returns a
JSON-variant request, overriding the configured format. -/
theorem C3_gharial_override (c : httpConnection) (method path : String)
    (hm : method ∈ validMethods)
    (hct : c.contentType = ContentTypeVelocypack)
    (hp : stringContains path "_api/gharial" = true) :
    (NewRequest c method path).1 =
      Except.ok (Request.httpJSONRequest method path) := by
  simp [NewRequest, hm, hct, hp, ContentTypeJSON, ContentTypeVelocypack]

/-- Claim C3, witness: a GET to a gharial path on a velocypack-configured
connection yields the JSON request variant. -/
theorem C3_gharial_override_witness :
    (NewRequest { endpoint := "e", contentType := 1, client := 0 }
        "GET" "/_db/x/_api/gharial/g").1 =
      Except.ok (Request.httpJSONRequest "GET" "/_db/x/_api/gharial/g") :=
  C3_gharial_override _ _ _ (by decide) rfl (by decide)

/-- Claim C4, counterexample: the claim quantifies over every path, but on
a path containing the gharial marker the override to JSON runs before the
content-type dispatch, so a connection configured with the unsupported
content type 2 gets a JSON request instead of the claimed
unsupported-content-type error. -/
theorem C4_counterexample :
    "GET" ∈ validMethods ∧
    (2 : Nat) ≠ ContentTypeJSON ∧ (2 : Nat) ≠ ContentTypeVelocypack ∧
    (NewRequest { endpoint := "e", contentType := 2, client := 0 }
        "GET" "_api/gharial").1 =
      Except.ok (Request.httpJSONRequest "GET" "_api/gharial") := by
  decide

/-- Claim C4 (amended): for every valid method and every path NOT
containing the gharial marker, a configured content type that is neither
JSON nor velocypack makes `NewRequest` return the unsupported-content-type
error at request-creation time. -/
theorem C4_unsupported_content_type (c : httpConnection) (method path : String)
    (hm : method ∈ validMethods)
    (h1 : c.contentType ≠ ContentTypeJSON)
    (h2 : c.contentType ≠ ContentTypeVelocypack)
    (hp : stringContains path "_api/gharial" = false) :
    (NewRequest c method path).1 =
      Except.error (DriverError.unsupportedContentTypeConfig c.contentType) := by
  simp [NewRequest, hm, h1, h2, hp]

/-- Claim C4 (amended), witness: content type 2 on a non-gharial path is
rejected at creation time. -/
theorem C4_unsupported_content_type_witness :
    (NewRequest { endpoint := "e", contentType := 2, client := 0 }
        "GET" "/_api/version").1 =
      Except.error (DriverError.unsupportedContentTypeConfig 2) :=
  C4_unsupported_content_type _ _ _ (by decide) (by decide) (by decide) (by decide)

/-- Claim C5: with the raw-capture slot attached, `Do` leaves the slot
holding exactly the body bytes read from the transport, except that in the
empty-body-under-unrecognized-media-type case the slot holds the
substituted empty object bytes. -/
theorem C5_raw_capture (rawInit : List Nat) (respSlot0 : Option (Option Response))
    (ctHeader : String) (status : Nat) (body : List Nat) :
    (doClassify (some rawInit) respSlot0 ctHeader status body).rawSlot =
      some (if recognizedMediaType (mediaType ctHeader) = false ∧
          status ≠ 401 ∧ body = [] then emptyObjectBytes else body) := by
  by_cases h1 : mediaType ctHeader = "application/json" <;>
  by_cases h2 : mediaType ctHeader = "application/x-arango-dump" <;>
  by_cases h3 : mediaType ctHeader = "application/x-velocypack" <;>
  by_cases h4 : status = 401 <;>
  by_cases h5 : body = ([] : List Nat) <;>
  simp [doClassify, recognizedMediaType, h1, h2, h3, h4, h5]

/-- Claim C6: `SetAuthentication` dispatches on the authentication
variant: Basic and JWT require the username and password fields present
and fail with a configuration error when one is absent; Raw requires the
value field; an unrecognized variant fails with an unsupported
authentication error at decoration time; and in every case, error cases
included, the wrapped connection is unchanged. -/
theorem C6_set_authentication (c : httpConnection) (auth : Authentication) :
    ((auth.typ = AuthenticationTypeBasic ∨ auth.typ = AuthenticationTypeJWT) →
      (auth.get "username" = "" ∨ auth.get "password" = "") →
      ∃ e, (SetAuthentication c auth).1 = Except.error e) ∧
    (auth.typ = AuthenticationTypeBasic →
      auth.get "username" ≠ "" → auth.get "password" ≠ "" →
      (SetAuthentication c auth).1 = Except.ok
        { auth := httpAuthentication.basicAuth (auth.get "username")
            (auth.get "password"),
          conn := c }) ∧
    (auth.typ = AuthenticationTypeJWT →
      auth.get "username" ≠ "" → auth.get "password" ≠ "" →
      (SetAuthentication c auth).1 = Except.ok
        { auth := httpAuthentication.jwtAuth (auth.get "username")
            (auth.get "password"),
          conn := c }) ∧
    (auth.typ = AuthenticationTypeRaw → auth.get "value" = "" →
      ∃ e, (SetAuthentication c auth).1 = Except.error e) ∧
    (auth.typ = AuthenticationTypeRaw → auth.get "value" ≠ "" →
      (SetAuthentication c auth).1 = Except.ok
        { auth := httpAuthentication.rawAuth (auth.get "value"), conn := c }) ∧
    (auth.typ ≠ AuthenticationTypeBasic → auth.typ ≠ AuthenticationTypeJWT →
      auth.typ ≠ AuthenticationTypeRaw →
      (SetAuthentication c auth).1 =
        Except.error (DriverError.unsupportedAuthenticationType auth.typ)) ∧
    (SetAuthentication c auth).2 = c := by
  refine ⟨?_, ?_, ?_, ?_, ?_, ?_, ?_⟩
  · rintro (ht | ht) hf
    · exact ⟨DriverError.missingAuthField "username or password",
        by simp [SetAuthentication, newBasicAuthentication,
          newAuthenticatedConnection, ht, hf]⟩
    · exact ⟨DriverError.missingAuthField "username or password",
        by simp [SetAuthentication, newJWTAuthentication,
          newAuthenticatedConnection, ht, hf,
          AuthenticationTypeBasic, AuthenticationTypeJWT]⟩
  · intro ht h1 h2
    simp [SetAuthentication, newBasicAuthentication,
      newAuthenticatedConnection, ht, h1, h2]
  · intro ht h1 h2
    simp [SetAuthentication, newJWTAuthentication,
      newAuthenticatedConnection, ht, h1, h2,
      AuthenticationTypeBasic, AuthenticationTypeJWT]
  · intro ht hf
    exact ⟨DriverError.missingAuthField "value",
      by simp [SetAuthentication, newRawAuthentication,
        newAuthenticatedConnection, ht, hf,
        AuthenticationTypeBasic, AuthenticationTypeJWT, AuthenticationTypeRaw]⟩
  · intro ht hf
    simp [SetAuthentication, newRawAuthentication,
      newAuthenticatedConnection, ht, hf,
      AuthenticationTypeBasic, AuthenticationTypeJWT, AuthenticationTypeRaw]
  · intro h1 h2 h3
    simp [SetAuthentication, h1, h2, h3]
  · simp only [SetAuthentication]
    repeat' split
    all_goals rfl

/-- Claim C6, witness: an unrecognized authentication variant fails at
decoration time with the unsupported authentication error. -/
theorem C6_set_authentication_witness :
    (SetAuthentication { endpoint := "e", contentType := 0, client := 0 }
        { typ := 7, fields := [] }).1 =
      Except.error (DriverError.unsupportedAuthenticationType 7) :=
  (C6_set_authentication { endpoint := "e", contentType := 0, client := 0 }
    { typ := 7, fields := [] }).2.2.2.2.2.1 (by decide) (by decide) (by decide)

/-- Claim C7, counterexample: the claim says the total idle-connection
limit is raised to 192 whenever the configured total is lower than 192,
but a zero (unlimited) configured total, which is lower than 192, is left
unchanged by the adjustment because it only fires on positive values. -/
theorem C7_counterexample :
    (0 : Int) < 192 ∧ (0 : Int) ≠ 192 ∧
    (adjustTransport { MaxIdleConnsPerHost := 10, MaxIdleConns := 0 }).MaxIdleConns = 0 := by
  decide

/-- Claim C7 (amended): an unset (zero) per-host idle limit is set to 64
and a nonzero one is left unchanged; the total idle limit is raised to 192
exactly when the configured total is positive and lower than 192, and is
left unchanged otherwise, including when it is zero or negative. -/
theorem C7_transport_defaults (t : Transport) :
    ((adjustTransport t).MaxIdleConnsPerHost =
      if t.MaxIdleConnsPerHost = 0 then 64 else t.MaxIdleConnsPerHost) ∧
    ((adjustTransport t).MaxIdleConns =
      if 0 < t.MaxIdleConns ∧ t.MaxIdleConns < 192 then 192
      else t.MaxIdleConns) := by
  by_cases h1 : t.MaxIdleConnsPerHost = 0 <;>
    by_cases h2 : 0 < t.MaxIdleConns ∧ t.MaxIdleConns < 192 <;>
    simp [adjustTransport, DefaultMaxIdleConnsPerHost, h1, h2]

/-- Claim C8: every method of the allow-list GET, POST, DELETE, HEAD,
PATCH, PUT, OPTIONS makes `NewRequest` succeed on a connection configured
with one of the two content types of the data model, and every method
outside the list makes it fail with the invalid-argument error naming the
method, whatever the configuration. -/
theorem C8_method_allow_list (c : httpConnection) (method path : String) :
    (method ∉ validMethods →
      (NewRequest c method path).1 =
        Except.error (DriverError.invalidMethod method)) ∧
    ((c.contentType = ContentTypeJSON ∨ c.contentType = ContentTypeVelocypack) →
      method ∈ validMethods →
      ∃ r, (NewRequest c method path).1 = Except.ok r) := by
  constructor
  · intro h
    simp [NewRequest, h]
  · rintro (hc | hc) h
    · exact ⟨Request.httpJSONRequest method path,
        by simp [NewRequest, h, hc, ContentTypeJSON, ContentTypeVelocypack]⟩
    · by_cases hp : stringContains path "_api/gharial" = true
      · exact ⟨Request.httpJSONRequest method path,
          by simp [NewRequest, h, hc, hp, ContentTypeJSON, ContentTypeVelocypack]⟩
      · exact ⟨Request.httpVPackRequest method path,
          by simp [NewRequest, h, hc, hp, ContentTypeJSON, ContentTypeVelocypack]⟩

/-- Claim C8, witness: GET succeeds on a JSON-configured connection and
TRACE is rejected as an invalid argument. -/
theorem C8_method_allow_list_witness :
    (∃ r, (NewRequest { endpoint := "e", contentType := 0, client := 0 }
        "GET" "/x").1 = Except.ok r) ∧
    (NewRequest { endpoint := "e", contentType := 0, client := 0 }
        "TRACE" "/x").1 = Except.error (DriverError.invalidMethod "TRACE") :=
  ⟨(C8_method_allow_list { endpoint := "e", contentType := 0, client := 0 }
      "GET" "/x").2 (Or.inl rfl) (by decide),
   (C8_method_allow_list { endpoint := "e", contentType := 0, client := 0 }
      "TRACE" "/x").1 (by decide)⟩

/-- Claim C9: when classification fails (401 authentication error or
unsupported content type on a non-empty body), the response-capture slot
keeps its prior contents while the raw-capture slot has already received
the body bytes. -/
theorem C9_error_slots (rawInit : List Nat) (respSlot0 : Option (Option Response))
    (ctHeader : String) (status : Nat) (body : List Nat) (e : DriverError)
    (h : (doClassify (some rawInit) respSlot0 ctHeader status body).result =
      Except.error e) :
    (doClassify (some rawInit) respSlot0 ctHeader status body).respSlot =
        respSlot0 ∧
    (doClassify (some rawInit) respSlot0 ctHeader status body).rawSlot =
        some body := by
  by_cases h1 : mediaType ctHeader = "application/json" <;>
  by_cases h2 : mediaType ctHeader = "application/x-arango-dump" <;>
  by_cases h3 : mediaType ctHeader = "application/x-velocypack" <;>
  by_cases h4 : status = 401 <;>
  by_cases h5 : body = ([] : List Nat) <;>
  simp [doClassify, h1, h2, h3, h4, h5] at h ⊢

/-- Claim C9, witness: an unrecognized media type with status 500 and a
non-empty body fails while leaving the response slot at its prior contents
and the raw slot holding the body. -/
theorem C9_error_slots_witness :
    (doClassify (some [5]) (some none) "text/plain" 500 [97]).respSlot =
        some none ∧
    (doClassify (some [5]) (some none) "text/plain" 500 [97]).rawSlot =
        some [97] :=
  C9_error_slots [5] (some none) "text/plain" 500 [97]
    (DriverError.unsupportedResponseContentType "text/plain" 500 [97]) (by decide)

/-- Claim C10: the gharial override is computed on a per-call local value:
`NewRequest` returns the connection unchanged, so a subsequent
`NewRequest` on the unchanged connection behaves exactly as on the
original one, whatever the first path was. -/
theorem C10_new_request_frame (c : httpConnection) (method path : String) :
    (NewRequest c method path).2 = c ∧
    ∀ method2 path2,
      NewRequest (NewRequest c method path).2 method2 path2 =
        NewRequest c method2 path2 := by
  have h : (NewRequest c method path).2 = c := by
    simp only [NewRequest]
    repeat' split
    all_goals rfl
  exact ⟨h, fun method2 path2 => by rw [h]⟩

end GoDriverHttp
